import Mathlib

/-!
Shallow embedding of `numkit/observables.py` (class `QuantityWithError`, class
`QID`, helpers `iterable` / `asiterable`), the error-propagating quantity core
of the GromacsWrapper repository.

Modelling choices:
* Python floats are modelled as real numbers `ℝ`.
* Identity tokens (minted from Python `id(self)`) are modelled as natural
  numbers; a fresh token is passed explicitly to every operation that may
  construct a quantity (`fresh : ℕ`), standing for the globally unique
  `id` of the newly constructed object.  "Globally unique" is expressed by
  the predicate `qbounded`: every token of an existing quantity is smaller
  than the next fresh token.
* The `qid` keyword argument of the constructor can be Python `None`, a bare
  integer token, or a collection of tokens.  `QidArg` models exactly these
  shapes.  The Boolean field of `QidArg.coll` records whether the collection
  contains non-token elements (such as Python `None`, which
  `frozenset.union(asiterable(None))` inserts): those elements make the
  collection truthy for the `qid or otherqid` test but are filtered out by
  the constructor's comprehension `[q for q in asiterable(qid) if not q is None]`.
* `QID.__new__` returns Python `None` when called with no argument, so the
  third component of `_astuple` is an `Option (Finset ℕ)`:
  `none` for a plain number, `some s` for a quantity with qid set `s`.
-/

/-- A quantity with value, variance (error squared), an identity set of
tokens, the self-covariance record `{qid: variance}` (modelled as the single
key/value pair it always holds), and a confidence level.  Mirrors the
attributes set by `QuantityWithError.__init__`. -/
structure QuantityWithError where
  value : ℝ
  variance : ℝ
  qid : Finset ℕ
  covariance : Finset ℕ × ℝ
  confidence : ℝ

/-- `error` property: square root of the stored variance. -/
noncomputable def QuantityWithError.error (a : QuantityWithError) : ℝ :=
  Real.sqrt a.variance

/-- A Python value appearing as the right operand of an arithmetic operator
or as the `value` argument of the constructor: a plain number or another
`QuantityWithError` instance. -/
inductive Operand where
  | num (x : ℝ)
  | q (a : QuantityWithError)

/-- `QuantityWithError._astuple`: extract `(value, error, qid)`.  A plain
number has error `0` and qid `QID()`, which is Python `None` (modelled as
`Option.none`). -/
noncomputable def astuple : Operand → ℝ × ℝ × Option (Finset ℕ)
  | .num x => (x, 0, Option.none)
  | .q a => (a.value, a.error, Option.some a.qid)

/-- Shapes a Python value bound to the constructor's `qid` variable can take:
`None`, a bare integer token, or a collection of tokens.  The Boolean of
`coll` records the presence of non-token elements (e.g. Python `None` put
into a frozenset by `QID.union`), which count for truthiness but are removed
by the constructor's `if not q is None` filter. -/
inductive QidArg where
  | pyNone
  | tok (n : ℕ)
  | coll (s : Finset ℕ) (hasNonTok : Bool)
deriving DecidableEq

/-- Python truthiness of a `qid` value: `None` and `0` are falsy, an empty
collection is falsy, anything else is truthy. -/
def QidArg.truthy : QidArg → Bool
  | .pyNone => false
  | .tok n => n != 0
  | .coll s b => if s = ∅ then b else true

/-- The token set obtained from
`[q for q in asiterable(qid) if not q is None]`:
`asiterable(None) = [None]` contributes nothing, a bare token is wrapped
into a one-element list, and non-token elements of a collection are
filtered out. -/
def QidArg.toSet : QidArg → Finset ℕ
  | .pyNone => ∅
  | .tok n => {n}
  | .coll s _ => s

/-- `qid = qid or otherqid` in the constructor: Python `or` keeps the left
value when it is truthy, otherwise evaluates to the right value (which is
`None` for a plain-number `value` argument or the absorbed quantity's qid
frozenset, possibly empty). -/
def pyOr (qid : QidArg) (otherqid : Option (Finset ℕ)) : QidArg :=
  if qid.truthy then qid
  else
    match otherqid with
    | Option.none => .pyNone
    | Option.some s => .coll s false

/-- `if qid is None and error != 0: qid = id(self)` — a fresh token is minted
only when the resolved qid is the Python value `None` (an empty frozenset
does not count) and the resolved error is nonzero. -/
noncomputable def resolveQid (q : QidArg) (error : ℝ) (fresh : ℕ) : QidArg :=
  match q with
  | .pyNone => if error ≠ 0 then .tok fresh else .pyNone
  | q => q

/-- `QuantityWithError.__init__(value, error=None, qid=None, confidence=0.99)`.
`fresh` stands for `id(self)` of the object being constructed.  The error
resolution follows the source: an explicit `error` argument wins, else the
absorbed instance's error if nonzero, else `0`. -/
noncomputable def init (value : Operand) (error : Option ℝ) (qid : QidArg)
    (confidence : Option ℝ) (fresh : ℕ) : QuantityWithError :=
  let t := astuple value
  let err := t.2.1
  let error2 : ℝ :=
    match error with
    | Option.some e => e
    | Option.none => if err ≠ 0 then err else 0
  let q2 := resolveQid (pyOr qid t.2.2) error2 fresh
  { value := t.1
    variance := error2 ^ 2
    qid := q2.toSet
    covariance := (q2.toSet, error2 ^ 2)
    confidence := confidence.getD 0.99 }

/-- `QuantityWithError.isSame`: `self.qid == other.qid`, with the
`AttributeError` fallback returning `False` for a plain number. -/
def QuantityWithError.isSame (a : QuantityWithError) (other : Operand) : Bool :=
  match other with
  | .q b => decide (a.qid = b.qid)
  | .num _ => false

/-- `QuantityWithError._dist`: `sqrt(x*x + y*y)`. -/
noncomputable def qdist (x y : ℝ) : ℝ := Real.sqrt (x * x + y * y)

theorem qdist_nonneg (x y : ℝ) : 0 ≤ qdist x y := Real.sqrt_nonneg _

/-- `self.qid.union(qid)` as called by the binary operators, where `qid` is
the third component of `_astuple(other)`.  `QID.union` evaluates
`frozenset.union(self, asiterable(x))`; for `x = None` this inserts the
element `None` into the resulting frozenset (making it truthy even when no
tokens are present), recorded here by the `hasNonTok` flag. -/
def qidUnion (s : Finset ℕ) (x : Option (Finset ℕ)) : QidArg :=
  match x with
  | Option.some t => .coll (s ∪ t) false
  | Option.none => .coll s true

/-- `QuantityWithError.__add__`. -/
noncomputable def add (a : QuantityWithError) (other : Operand) (fresh : ℕ) :
    QuantityWithError :=
  let t := astuple other
  if a.isSame other then
    init (.num (a.value + t.1)) (Option.some |a.error + t.2.1|)
      (.coll a.qid false) Option.none fresh
  else
    init (.num (a.value + t.1)) (Option.some (qdist a.error t.2.1))
      (qidUnion a.qid t.2.2) Option.none fresh

/-- `QuantityWithError.__sub__`. -/
noncomputable def sub (a : QuantityWithError) (other : Operand) (fresh : ℕ) :
    QuantityWithError :=
  let t := astuple other
  if a.isSame other then
    init (.num (a.value - t.1)) (Option.some |a.error - t.2.1|)
      (.coll a.qid false) Option.none fresh
  else
    init (.num (a.value - t.1)) (Option.some (qdist a.error t.2.1))
      (qidUnion a.qid t.2.2) Option.none fresh

/-- `QuantityWithError.__mul__`. -/
noncomputable def mul (a : QuantityWithError) (other : Operand) (fresh : ℕ) :
    QuantityWithError :=
  let t := astuple other
  if a.isSame other then
    init (.num (a.value * t.1)) (Option.some |a.error * t.2.1|)
      (.coll a.qid false) Option.none fresh
  else
    init (.num (a.value * t.1)) (Option.some (qdist (t.1 * a.error) (t.2.1 * a.value)))
      (qidUnion a.qid t.2.2) Option.none fresh

/-- `QuantityWithError.__div__`. -/
noncomputable def div (a : QuantityWithError) (other : Operand) (fresh : ℕ) :
    QuantityWithError :=
  let t := astuple other
  if a.isSame other then
    init (.num (a.value / t.1)) (Option.some 0) (.coll a.qid false) Option.none fresh
  else
    init (.num (a.value / t.1))
      (Option.some (qdist (a.error / t.1) (t.2.1 * a.value / t.1 ^ 2)))
      (qidUnion a.qid t.2.2) Option.none fresh

/-- `QuantityWithError.__neg__`. -/
noncomputable def neg (a : QuantityWithError) (fresh : ℕ) : QuantityWithError :=
  init (.num (-a.value)) (Option.some a.error) (.coll a.qid false) Option.none fresh

/-- `QuantityWithError.__abs__`. -/
noncomputable def absq (a : QuantityWithError) (fresh : ℕ) : QuantityWithError :=
  init (.num |a.value|) (Option.some a.error) (.coll a.qid false) Option.none fresh

/-- The `qid` argument built by `__pow__`'s independent branch,
`qid=[self.qid, yqid]`: a two-element list (always truthy).  In the source
the constructor's `update` then inserts the two frozensets themselves as set
elements (a nesting quirk); identity tokens are flat naturals here, so the
flat union of the contributed tokens is recorded, with the `hasNonTok` flag
set because the list is truthy regardless of the token sets it carries.  No
operation exercised by the claims observes the identity of a `**` result. -/
def powQidArg (s : Finset ℕ) (x : Option (Finset ℕ)) : QidArg :=
  .coll (s ∪ x.getD ∅) true

/-- `QuantityWithError.__pow__` for the two-argument form `pow(self, y)`
(the `z is None` path past the `NotImplementedError` guard). -/
noncomputable def powq (a : QuantityWithError) (other : Operand) (fresh : ℕ) :
    QuantityWithError :=
  let x := a.value
  let dx := a.error
  let t := astuple other
  if a.isSame other then
    let f := x ^ t.1
    init (.num f) (Option.some |dx * f * (1 + Real.log x)|)
      (.coll a.qid false) Option.none fresh
  else
    let f := x ^ t.1
    init (.num f) (Option.some (qdist (dx * f * t.1 / x) (t.2.1 * f * Real.log x)))
      (powQidArg a.qid t.2.2) Option.none fresh

/-- `QuantityWithError.__pow__(self, other, z)`: the three-argument modular
form raises `NotImplementedError` before any computation; otherwise the
two-argument computation runs. -/
noncomputable def pow3 (a : QuantityWithError) (other : Operand) (z : Option ℝ)
    (fresh : ℕ) : Except String QuantityWithError :=
  match z with
  | Option.some _ =>
      Except.error "only pow(self, y) implemented, not pow(self,y,z)"
  | Option.none => Except.ok (powq a other fresh)

/-- `QuantityWithError.copy`: `QuantityWithError(self.value, self.error)` —
no qid is passed. -/
noncomputable def copy (a : QuantityWithError) (fresh : ℕ) : QuantityWithError :=
  init (.num a.value) (Option.some a.error) .pyNone Option.none fresh

/-- `QuantityWithError.deepcopy`:
`QuantityWithError(self.value, self.error, qid=self.qid, confidence=self.confidence)`. -/
noncomputable def deepcopy (a : QuantityWithError) (fresh : ℕ) : QuantityWithError :=
  init (.num a.value) (Option.some a.error) (.coll a.qid false)
    (Option.some a.confidence) fresh

/-- All identity tokens of `a` were minted before the next fresh token `n`
(`id(self)` values are distinct for simultaneously live objects, modelled by
a monotone counter). -/
def qbounded (a : QuantityWithError) (n : ℕ) : Prop := ∀ t ∈ a.qid, t < n

/-! ### Comparison (`__cmp__`)

The module is Python 2 code (`gromacs/setup.py` in the same repository uses
`except OSError, err:` and `print >>` statements), so `__cmp__` ends in a
call to the Python 2 builtin `cmp`. -/

/-- An arbitrary Python value handed to `__cmp__`: a number, a text string,
`None`, or another quantity.  Strings and `None` stand for the
"neither a number nor Quantity-like" operands of the claims. -/
inductive PyVal where
  | num (x : ℝ)
  | str (s : String)
  | noneV
  | qv (a : QuantityWithError)

/-- `_astuple` applied to an arbitrary object: a `QuantityWithError` exposes
`.value/.error/.qid`; any other object raises `AttributeError`, caught by
the `except` clause, so the object itself becomes `val` with `err = 0` and
`qid = QID()` (Python `None`). -/
noncomputable def astupleAny : PyVal → PyVal × ℝ × Option (Finset ℕ)
  | .qv a => (.num a.value, a.error, Option.some a.qid)
  | v => (v, 0, Option.none)

/-- The Python 2 builtin `cmp(x, val)` for a float `x` and an arbitrary
object: two numbers compare numerically; for mixed types CPython 2's
`default_3way_compare` never raises — `None` sorts below everything
(result `1`) and numbers sort below all other types, strings included
(result `-1`).  A `QuantityWithError` right operand is compared through its
`value` (number coercion via `__coerce__`); `qcmp` below never produces
this case because `_astuple` already extracts the value. -/
noncomputable def cmpBuiltin (x : ℝ) : PyVal → Int
  | .num y => if x < y then -1 else if y < x then 1 else 0
  | .noneV => 1
  | .str _ => -1
  | .qv b => if x < b.value then -1 else if b.value < x then 1 else 0

/-- `QuantityWithError.__cmp__`: `result = cmp(self.value, val)` with
`val` the first component of `_astuple(other)`.  Total — no exception path
exists in the Python 2 body. -/
noncomputable def qcmp (a : QuantityWithError) (other : PyVal) : Int :=
  cmpBuiltin a.value (astupleAny other).1

/-! ### Iterable-coercion helpers (`iterable` / `asiterable`) -/

/-- The observable features of a Python 2 object that the `iterable` helper
probes, together with the ground-truth properties the specification talks
about.  `typeIsStr` is the exact-type test `type(obj) is str`;
`hasNextAttr` is `hasattr(obj, 'next')`; `lenOk` is whether `len(obj)`
succeeds; `isTextString` is whether the object is a text string (`str`,
`unicode`, or a subclass of either); `supportsIteration` is whether the
object can be iterated over. -/
structure PyObj where
  typeIsStr : Bool
  hasNextAttr : Bool
  lenOk : Bool
  isTextString : Bool
  supportsIteration : Bool
deriving DecidableEq

/-- `iterable(obj)`: `False` if `type(obj) is str`; else `True` if the
object has a `next` attribute; else `True` iff `len(obj)` succeeds. -/
def iterable (obj : PyObj) : Bool :=
  if obj.typeIsStr then false
  else if obj.hasNextAttr then true
  else obj.lenOk

/-- `asiterable(obj)`: the object itself (`Sum.inl`) when `iterable(obj)`,
else the one-element list `[obj]` (`Sum.inr`). -/
def asiterable (obj : PyObj) : PyObj ⊕ List PyObj :=
  if iterable obj then Sum.inl obj else Sum.inr [obj]

/-! ### Object-level frame model

Every arithmetic special method of `QuantityWithError` builds its result by
calling the constructor, which assigns fields of the *new* object only; no
method assigns to an attribute of an existing quantity.  To state this, the
heap of live quantities is modelled as a list indexed by address, together
with the counter minting `id()` tokens; each operation appends one newly
constructed quantity. -/

/-- The seven arithmetic operations of the claim: `+ - * / **`, unary
negation and absolute value. -/
inductive ArithOp where
  | addOp | subOp | mulOp | divOp | powOp | negOp | absOp
deriving DecidableEq

/-- Dispatch an operation to the translated method body (for `**`, the
two-argument `z = None` form, the only one that constructs a result). -/
noncomputable def applyOp : ArithOp → QuantityWithError → Operand → ℕ → QuantityWithError
  | .addOp, a, other, fresh => add a other fresh
  | .subOp, a, other, fresh => sub a other fresh
  | .mulOp, a, other, fresh => mul a other fresh
  | .divOp, a, other, fresh => div a other fresh
  | .powOp, a, other, fresh => powq a other fresh
  | .negOp, a, _, fresh => neg a fresh
  | .absOp, a, _, fresh => absq a fresh

/-- Process state: the `id()` counter and the heap of live quantities. -/
structure PState where
  counter : ℕ
  heap : List QuantityWithError

/-- Run one arithmetic operation on the quantity at address `i`: the method
constructs exactly one new object (appended at the end of the heap, with the
next `id()` token) and writes no field of any existing object. -/
noncomputable def step (op : ArithOp) (st : PState) (i : ℕ) (other : Operand) : PState :=
  match st.heap[i]? with
  | Option.none => st
  | Option.some a =>
      { counter := st.counter + 1
        heap := st.heap ++ [applyOp op a other st.counter] }

/-! ### Helper lemmas -/

theorem error_nonneg (a : QuantityWithError) : 0 ≤ a.error :=
  Real.sqrt_nonneg _

theorem init_value (v : Operand) (e : Option ℝ) (q : QidArg) (c : Option ℝ) (f : ℕ) :
    (init v e q c f).value = (astuple v).1 := rfl

theorem init_error_some (v : Operand) (e : ℝ) (q : QidArg) (c : Option ℝ) (f : ℕ) :
    (init v (Option.some e) q c f).error = |e| := by
  simp [init, QuantityWithError.error, Real.sqrt_sq_eq_abs]

/-- A truthy `qid` argument survives both `qid or otherqid` and the
fresh-token branch, so the constructed identity is its token set. -/
theorem init_qid_truthy (v : Operand) (e : Option ℝ) (q : QidArg) (c : Option ℝ) (f : ℕ)
    (h : q.truthy = true) : (init v e q c f).qid = q.toSet := by
  have hq : pyOr q (astuple v).2.2 = q := by simp [pyOr, h]
  cases q with
  | pyNone => simp [QidArg.truthy] at h
  | tok n => simp [init, hq, resolveQid]
  | coll s b => simp [init, hq, resolveQid]

/-- `a.isSame(a)` is always true: a quantity's qid equals itself. -/
theorem isSame_self (a : QuantityWithError) : a.isSame (.q a) = true := by
  simp [QuantityWithError.isSame]

/-! ### C4 -/

/-- C4: for every Quantity `a` with nonzero value, `(a/a).value` equals `1`,
`(a/a).error` equals `0`, and the result's identity is exactly `a`'s
identity. -/
theorem c4_div_self (a : QuantityWithError) (f : ℕ) (h : a.value ≠ 0) :
    (div a (.q a) f).value = 1 ∧ (div a (.q a) f).error = 0 ∧
      (div a (.q a) f).qid = a.qid := by
  have hd : div a (.q a) f =
      init (.num (a.value / a.value)) (Option.some 0) (.coll a.qid false)
        Option.none f := by
    simp [div, isSame_self, astuple]
  refine ⟨?_, ?_, ?_⟩
  · rw [hd, init_value]; simp [astuple, div_self h]
  · rw [hd, init_error_some]; simp
  · rw [hd]
    by_cases hq : a.qid = ∅
    · simp [init, astuple, pyOr, QidArg.truthy, hq, resolveQid, QidArg.toSet]
    · rw [init_qid_truthy _ _ _ _ _ (by simp [QidArg.truthy, hq])]
      rfl

/-- Sample quantity `QuantityWithError(2.0, 1.0, qid=1)`. -/
noncomputable def sampleQ : QuantityWithError :=
  init (.num 2) (Option.some 1) (.tok 1) Option.none 0

theorem c4_div_self_witness :
    sampleQ.value ≠ 0 ∧
      ((div sampleQ (.q sampleQ) 5).value = 1 ∧
        (div sampleQ (.q sampleQ) 5).error = 0 ∧
        (div sampleQ (.q sampleQ) 5).qid = sampleQ.qid) := by
  have hv : sampleQ.value = 2 := rfl
  exact ⟨by rw [hv]; norm_num, c4_div_self sampleQ 5 (by rw [hv]; norm_num)⟩

/-! ### C3 -/

/-- `QuantityWithError(2.0)`: a plain number wrapped without error; its
identity is the empty set. -/
noncomputable def zeroErrQ2 : QuantityWithError :=
  init (.num 2) Option.none .pyNone Option.none 0

theorem zeroErrQ2_qid : zeroErrQ2.qid = ∅ := by
  simp [zeroErrQ2, init, astuple, pyOr, QidArg.truthy, resolveQid, QidArg.toSet]

/-- `QuantityWithError(zeroErrQ2, 1.0)`: absorbing a zero-error quantity
while supplying a nonzero error.  The absorbed qid is the *empty frozenset*,
which is not Python `None`, so the fresh-token branch is skipped: the result
has error `1` but an empty identity. -/
noncomputable def emptyIdQ : QuantityWithError :=
  init (.q zeroErrQ2) (Option.some 1) .pyNone Option.none 1

theorem emptyIdQ_qid : emptyIdQ.qid = ∅ := by
  simp [emptyIdQ, init, astuple, pyOr, QidArg.truthy, resolveQid, QidArg.toSet,
    zeroErrQ2_qid]

theorem emptyIdQ_error : emptyIdQ.error = 1 := by
  rw [emptyIdQ, init_error_some]; norm_num

/-- C3 counterexample: for the reachable Quantity
`a = QuantityWithError(QuantityWithError(2.0), 1.0)` (error 1, empty
identity), the identity of `a+a` is *not* `a`'s identity: the same-identity
branch passes `qid=self.qid`, but an empty frozenset is falsy, so
`qid or otherqid` discards it and the constructor mints a fresh token. -/
theorem c3_counterexample :
    (add emptyIdQ (.q emptyIdQ) 2).qid ≠ emptyIdQ.qid := by
  have hd : add emptyIdQ (.q emptyIdQ) 2 =
      init (.num (emptyIdQ.value + emptyIdQ.value))
        (Option.some |emptyIdQ.error + emptyIdQ.error|) (.coll emptyIdQ.qid false)
        Option.none 2 := by
    simp [add, isSame_self, astuple]
  have hq : (add emptyIdQ (.q emptyIdQ) 2).qid = {2} := by
    rw [hd, emptyIdQ_qid, emptyIdQ_error]
    norm_num [init, astuple, pyOr, QidArg.truthy, resolveQid, QidArg.toSet]
  rw [hq, emptyIdQ_qid]
  decide

/-- C3 (amended): for every Quantity `a`, `(a+a).value = 2*a.value` and
`(a+a).error = 2*a.error`; the result's identity is exactly `a`'s identity
provided `a`'s identity is nonempty or `a`'s error is zero (a quantity with
nonzero error but empty identity instead receives a fresh identity, see the
counterexample). -/
theorem c3_add_self (a : QuantityWithError) (f : ℕ) :
    (add a (.q a) f).value = 2 * a.value ∧
      (add a (.q a) f).error = 2 * a.error ∧
      (a.qid ≠ ∅ ∨ a.error = 0 → (add a (.q a) f).qid = a.qid) := by
  have hd : add a (.q a) f =
      init (.num (a.value + a.value)) (Option.some |a.error + a.error|)
        (.coll a.qid false) Option.none f := by
    simp [add, isSame_self, astuple]
  refine ⟨?_, ?_, fun h => ?_⟩
  · rw [hd, init_value]; simp [astuple]; ring
  · rw [hd, init_error_some, abs_abs,
      abs_of_nonneg (add_nonneg (error_nonneg a) (error_nonneg a))]
    exact (two_mul _).symm
  · by_cases hq : a.qid = ∅
    · have he : a.error = 0 := h.resolve_left (by simp [hq])
      rw [hd, hq, he]
      norm_num [init, astuple, pyOr, QidArg.truthy, resolveQid, QidArg.toSet]
    · rw [hd, init_qid_truthy _ _ _ _ _ (by simp [QidArg.truthy, hq])]
      rfl

theorem c3_add_self_witness :
    (sampleQ.qid ≠ ∅ ∨ sampleQ.error = 0) ∧
      ((add sampleQ (.q sampleQ) 7).value = 2 * sampleQ.value ∧
        (add sampleQ (.q sampleQ) 7).error = 2 * sampleQ.error ∧
        (add sampleQ (.q sampleQ) 7).qid = sampleQ.qid) :=
  ⟨Or.inl (by decide),
    ⟨(c3_add_self sampleQ 7).1, (c3_add_self sampleQ 7).2.1,
      (c3_add_self sampleQ 7).2.2 (Or.inl (by decide))⟩⟩

/-! ### C1 -/

/-- The identity built by the constructor for a plain-number value, an
explicit error and no qid argument: a fresh token iff the error is nonzero. -/
theorem init_qid_pyNone_num (x e : ℝ) (c : Option ℝ) (f : ℕ) :
    (init (.num x) (Option.some e) .pyNone c f).qid =
      if e ≠ 0 then {f} else ∅ := by
  by_cases he : e = 0
  · simp [init, astuple, pyOr, QidArg.truthy, resolveQid, QidArg.toSet, he]
  · simp [init, astuple, pyOr, QidArg.truthy, resolveQid, QidArg.toSet, he]

theorem zeroErrQ2_error : zeroErrQ2.error = 0 := by
  simp [zeroErrQ2, init, astuple, QuantityWithError.error]

/-- C1 counterexample: for `a = QuantityWithError(2.0)` — a Quantity
constructed with zero error — `a.copy().isSame(a)` is *true*, not false:
both identities are the empty set. -/
theorem c1_counterexample :
    (copy zeroErrQ2 1).isSame (.q zeroErrQ2) = true := by
  have hq : (copy zeroErrQ2 1).qid = ∅ := by
    simp only [copy, zeroErrQ2_error, init_qid_pyNone_num]
    simp
  simp [QuantityWithError.isSame, hq, zeroErrQ2_qid]

/-- C1 (amended): `copy()` returns a new Quantity with the same value and
error; when the error is nonzero the identity is freshly minted, so
`a.copy().isSame(a)` is false for every `a` with nonzero error; but for a
Quantity constructed with zero error (empty identity) the copy's identity is
also empty, so `a.copy().isSame(a)` is true. -/
theorem c1_copy (a : QuantityWithError) (f : ℕ) (hb : qbounded a f) :
    (copy a f).value = a.value ∧ (copy a f).error = a.error ∧
      (a.error ≠ 0 → (copy a f).isSame (.q a) = false) ∧
      (a.error = 0 → a.qid = ∅ → (copy a f).isSame (.q a) = true) := by
  refine ⟨rfl, ?_, ?_, ?_⟩
  · simp only [copy, init_error_some]
    exact abs_of_nonneg (error_nonneg a)
  · intro he
    have hq : (copy a f).qid = {f} := by
      simp only [copy, init_qid_pyNone_num]
      exact if_pos he
    have hne : ({f} : Finset ℕ) ≠ a.qid := by
      intro hEq
      have hf : f ∈ a.qid := hEq ▸ Finset.mem_singleton_self f
      exact absurd (hb f hf) (lt_irrefl f)
    simp only [QuantityWithError.isSame, hq]
    exact decide_eq_false hne
  · intro he hq0
    have hq : (copy a f).qid = ∅ := by
      simp only [copy, init_qid_pyNone_num]
      simp [he]
    simp [QuantityWithError.isSame, hq, hq0]

theorem c1_copy_witness :
    qbounded sampleQ 9 ∧
      ((copy sampleQ 9).value = sampleQ.value ∧
        (copy sampleQ 9).error = sampleQ.error ∧
        (sampleQ.error ≠ 0 → (copy sampleQ 9).isSame (.q sampleQ) = false) ∧
        (sampleQ.error = 0 → sampleQ.qid = ∅ →
          (copy sampleQ 9).isSame (.q sampleQ) = true)) :=
  ⟨show ∀ t ∈ sampleQ.qid, t < 9 by decide,
    c1_copy sampleQ 9 (show ∀ t ∈ sampleQ.qid, t < 9 by decide)⟩

/-! ### C5 -/

/-- `QuantityWithError(1.0, 1.0, qid=7)`: identity `{7}`. -/
noncomputable def b5Q : QuantityWithError :=
  init (.num 1) (Option.some 1) (.tok 7) Option.none 0

/-- `QuantityWithError(b5Q, qid=0)`: the explicitly passed identity token
`0` is falsy, so `qid or otherqid` discards it. -/
noncomputable def x5Q : QuantityWithError :=
  init (.q b5Q) Option.none (.tok 0) Option.none 1

/-- C5 counterexample: constructing from another quantity with the explicit
identity argument `0` (a falsy token) does *not* build the identity from
that argument: `qid = qid or otherqid` treats the falsy `0` as absent and
the absorbed quantity's identity `{7}` is used instead. -/
theorem c5_counterexample :
    x5Q.qid = b5Q.qid ∧ x5Q.qid ≠ ({0} : Finset ℕ) := by
  constructor
  · rfl
  · decide

/-- C5 (amended): a *truthy* explicitly supplied identity argument (a
nonzero bare token or a nonempty collection) always takes precedence: the
constructed identity is its token set, regardless of the value argument, the
error, and the absorbed quantity's identity.  Falsy identity arguments
(`None`, the token `0`, an empty set) are treated as absent. -/
theorem c5_explicit_qid (v : Operand) (e : Option ℝ) (q : QidArg) (c : Option ℝ)
    (f : ℕ) (h : q.truthy = true) : (init v e q c f).qid = q.toSet :=
  init_qid_truthy v e q c f h

theorem c5_explicit_qid_witness :
    QidArg.truthy (.tok 3) = true ∧
      (init (.q b5Q) (Option.some 2) (.tok 3) Option.none 4).qid =
        QidArg.toSet (.tok 3) :=
  ⟨by decide, c5_explicit_qid _ _ _ _ _ (by decide)⟩

/-! ### C2 -/

/-- Three independent unit-error measurements with distinct identities. -/
noncomputable def xQ : QuantityWithError :=
  init (.num 1) (Option.some 1) (.tok 1) Option.none 0

noncomputable def yQ : QuantityWithError :=
  init (.num 1) (Option.some 1) (.tok 2) Option.none 0

noncomputable def zQ : QuantityWithError :=
  init (.num 1) (Option.some 1) (.tok 3) Option.none 0

/-- `aQ = xQ + yQ`: identity `{1, 2}`. -/
noncomputable def aQ : QuantityWithError := add xQ (.q yQ) 10

/-- `bQ = yQ + zQ`: identity `{2, 3}` — overlapping with `aQ`'s. -/
noncomputable def bQ : QuantityWithError := add yQ (.q zQ) 11

theorem xQ_error : xQ.error = 1 := by
  simp only [xQ, init_error_some]; norm_num

theorem yQ_error : yQ.error = 1 := by
  simp only [yQ, init_error_some]; norm_num

theorem xQ_isSame_yQ : xQ.isSame (.q yQ) = false := by decide

theorem yQ_isSame_zQ : yQ.isSame (.q zQ) = false := by decide

theorem aQ_error_ne : aQ.error ≠ 0 := by
  have h : aQ.error = |qdist xQ.error yQ.error| := by
    simp only [aQ, add, astuple, xQ_isSame_yQ, Bool.false_eq_true, if_false,
      init_error_some]
  rw [h, xQ_error, yQ_error, abs_of_nonneg (qdist_nonneg _ _)]
  unfold qdist
  rw [Real.sqrt_ne_zero']
  norm_num

theorem bQ_error_ne : bQ.error ≠ 0 := by
  have h : bQ.error = |qdist yQ.error zQ.error| := by
    simp only [bQ, add, astuple, yQ_isSame_zQ, Bool.false_eq_true, if_false,
      init_error_some]
  rw [h, yQ_error, show zQ.error = 1 by simp only [zQ, init_error_some]; norm_num,
    abs_of_nonneg (qdist_nonneg _ _)]
  unfold qdist
  rw [Real.sqrt_ne_zero']
  norm_num

/-- C2 counterexample: `aQ = xQ + yQ` and `bQ = yQ + zQ` have nonzero errors
and distinct identities (`{1,2}` vs `{2,3}`, so `isSame` is false), yet the
identity of `aQ + bQ` is the union `{1,2,3}` of size 3, not
`|{1,2}| + |{2,3}| = 4`: distinct identity sets built through arithmetic can
overlap, and then the union size is not the sum of sizes. -/
theorem c2_counterexample :
    aQ.error ≠ 0 ∧ bQ.error ≠ 0 ∧ aQ.isSame (.q bQ) = false ∧
      (add aQ (.q bQ) 12).qid.card ≠ aQ.qid.card + bQ.qid.card :=
  ⟨aQ_error_ne, bQ_error_ne, by decide, by decide⟩

/-- C2 (amended): for independent Quantities `a` and `b` with nonzero errors
and distinct identities, `(a+b).error = sqrt(a.error² + b.error²)` and
`(a+b).identity = a.identity ∪ b.identity`; the size of that union equals
the sum of the two identity-set sizes when the two identity sets are
*disjoint* (as for freshly constructed independent quantities), which is
strictly stronger than being distinct. -/
theorem c2_indep_add (a b : QuantityWithError) (f : ℕ)
    (ha : a.error ≠ 0) (hb : b.error ≠ 0) (hq : a.qid ≠ b.qid) :
    (add a (.q b) f).error = Real.sqrt (a.error ^ 2 + b.error ^ 2) ∧
      (add a (.q b) f).qid = a.qid ∪ b.qid ∧
      (Disjoint a.qid b.qid →
        (add a (.q b) f).qid.card = a.qid.card + b.qid.card) := by
  have hs : a.isSame (.q b) = false := by
    simp [QuantityWithError.isSame, hq]
  have hd : add a (.q b) f =
      init (.num (a.value + b.value)) (Option.some (qdist a.error b.error))
        (.coll (a.qid ∪ b.qid) false) Option.none f := by
    simp [add, astuple, hs, qidUnion]
  have hU : a.qid ∪ b.qid ≠ ∅ := by
    intro hE
    exact hq (by rw [(Finset.union_eq_empty.mp hE).1, (Finset.union_eq_empty.mp hE).2])
  have hqid : (add a (.q b) f).qid = a.qid ∪ b.qid := by
    rw [hd, init_qid_truthy _ _ _ _ _ (by simp [QidArg.truthy, hU])]
    rfl
  refine ⟨?_, hqid, fun hdisj => ?_⟩
  · rw [hd, init_error_some, abs_of_nonneg (qdist_nonneg _ _)]
    unfold qdist
    ring_nf
  · rw [hqid]
    exact Finset.card_union_of_disjoint hdisj

theorem c2_indep_add_witness :
    xQ.error ≠ 0 ∧ yQ.error ≠ 0 ∧ xQ.qid ≠ yQ.qid ∧
      ((add xQ (.q yQ) 20).error = Real.sqrt (xQ.error ^ 2 + yQ.error ^ 2) ∧
        (add xQ (.q yQ) 20).qid = xQ.qid ∪ yQ.qid ∧
        (Disjoint xQ.qid yQ.qid →
          (add xQ (.q yQ) 20).qid.card = xQ.qid.card + yQ.qid.card)) :=
  ⟨by rw [xQ_error]; norm_num, by rw [yQ_error]; norm_num, by decide,
    c2_indep_add xQ yQ 20 (by rw [xQ_error]; norm_num)
      (by rw [yQ_error]; norm_num) (by decide)⟩

/-! ### C10 -/

/-- `QuantityWithError(v)`: a Quantity constructed from a bare number with
zero error and no explicit identity. -/
noncomputable def plainQ (v : ℝ) (f : ℕ) : QuantityWithError :=
  init (.num v) Option.none .pyNone Option.none f

theorem plainQ_qid (v : ℝ) (f : ℕ) : (plainQ v f).qid = ∅ := by
  simp [plainQ, init, astuple, pyOr, QidArg.truthy, resolveQid, QidArg.toSet]

/-- C10: two Quantities constructed with zero error and no explicit identity
both receive the empty identity, so `a.isSame(b)` is true although `a` and
`b` are unrelated values, and every binary arithmetic operation between them
takes the correlated (same-identity) branch: each operator result equals the
same-identity-branch construction of its body. -/
theorem c10_zero_error_same_branch (va vb : ℝ) (f1 f2 f : ℕ) :
    (plainQ va f1).isSame (.q (plainQ vb f2)) = true ∧
      add (plainQ va f1) (.q (plainQ vb f2)) f =
        init (.num ((plainQ va f1).value + (plainQ vb f2).value))
          (Option.some |(plainQ va f1).error + (plainQ vb f2).error|)
          (.coll (plainQ va f1).qid false) Option.none f ∧
      sub (plainQ va f1) (.q (plainQ vb f2)) f =
        init (.num ((plainQ va f1).value - (plainQ vb f2).value))
          (Option.some |(plainQ va f1).error - (plainQ vb f2).error|)
          (.coll (plainQ va f1).qid false) Option.none f ∧
      mul (plainQ va f1) (.q (plainQ vb f2)) f =
        init (.num ((plainQ va f1).value * (plainQ vb f2).value))
          (Option.some |(plainQ va f1).error * (plainQ vb f2).error|)
          (.coll (plainQ va f1).qid false) Option.none f ∧
      div (plainQ va f1) (.q (plainQ vb f2)) f =
        init (.num ((plainQ va f1).value / (plainQ vb f2).value))
          (Option.some 0) (.coll (plainQ va f1).qid false) Option.none f ∧
      powq (plainQ va f1) (.q (plainQ vb f2)) f =
        init (.num ((plainQ va f1).value ^ (plainQ vb f2).value))
          (Option.some |(plainQ va f1).error * (plainQ va f1).value ^ (plainQ vb f2).value *
            (1 + Real.log (plainQ va f1).value)|)
          (.coll (plainQ va f1).qid false) Option.none f := by
  have hs : (plainQ va f1).isSame (.q (plainQ vb f2)) = true := by
    simp [QuantityWithError.isSame, plainQ_qid]
  refine ⟨hs, ?_, ?_, ?_, ?_, ?_⟩
  · simp [add, astuple, hs]
  · simp [sub, astuple, hs]
  · simp [mul, astuple, hs]
  · simp [div, astuple, hs]
  · simp [powq, astuple, hs]

/-! ### C6 -/

/-- C6: no arithmetic operation mutates an existing Quantity: every heap
entry present before the operation is unchanged afterwards (hence each
operand's value, variance, identity, covariance and confidence fields are
unchanged), the heap grows by exactly the one newly constructed result, and
that result sits at a fresh address. -/
theorem c6_no_mutation (op : ArithOp) (st : PState) (i : ℕ) (other : Operand)
    (j : ℕ) (hj : j < st.heap.length) (a : QuantityWithError)
    (ha : st.heap[i]? = Option.some a) :
    (step op st i other).heap[j]? = st.heap[j]? ∧
      (step op st i other).heap.length = st.heap.length + 1 ∧
      (step op st i other).heap[st.heap.length]? =
        Option.some (applyOp op a other st.counter) := by
  simp only [step, ha]
  refine ⟨?_, by simp, ?_⟩
  · exact List.getElem?_append_left hj
  · exact List.getElem?_concat_length _ _

theorem c6_no_mutation_witness :
    0 < (PState.mk 0 [sampleQ]).heap.length ∧
      (PState.mk 0 [sampleQ]).heap[0]? = Option.some sampleQ ∧
      ((step .addOp (PState.mk 0 [sampleQ]) 0 (.num 3)).heap[0]? =
          (PState.mk 0 [sampleQ]).heap[0]? ∧
        (step .addOp (PState.mk 0 [sampleQ]) 0 (.num 3)).heap.length =
          (PState.mk 0 [sampleQ]).heap.length + 1 ∧
        (step .addOp (PState.mk 0 [sampleQ]) 0 (.num 3)).heap[
            (PState.mk 0 [sampleQ]).heap.length]? =
          Option.some (applyOp .addOp sampleQ (.num 3) (PState.mk 0 [sampleQ]).counter)) :=
  ⟨by decide, rfl,
    c6_no_mutation .addOp (PState.mk 0 [sampleQ]) 0 (.num 3) 0 (by decide) sampleQ rfl⟩

/-! ### C7 -/

/-- C7 counterexample: comparing `QuantityWithError(2.0, 1.0, qid=1)`
against the string `"spam"` (neither a number nor Quantity-like) does not
fail with a type error: the Python 2 builtin `cmp` falls back to cross-type
ordering and an ordering result, `-1`, is returned. -/
theorem c7_counterexample : qcmp sampleQ (.str "spam") = -1 := rfl

/-- C7 (amended): under the Python 2 semantics this module is written for,
comparing a Quantity against a non-numeric, non-Quantity object does not
raise: `cmp(self.value, val)` uses CPython 2's cross-type ordering and
returns `-1` against every string (numbers sort before strings) and `1`
against `None` (`None` sorts below everything). -/
theorem c7_cmp_nonnumeric (a : QuantityWithError) (s : String) :
    qcmp a (.str s) = -1 ∧ qcmp a .noneV = 1 := ⟨rfl, rfl⟩

/-! ### C8 -/

/-- C8: for every Quantity `x`, operand `y` and modulus `z` that is not
`None`, the three-argument `pow(x, y, z)` raises `NotImplementedError`
before constructing anything: no result Quantity is produced. -/
theorem c8_pow3_modular (a : QuantityWithError) (y : Operand) (m : ℝ) (f : ℕ) :
    pow3 a y (Option.some m) f =
      Except.error "only pow(self, y) implemented, not pow(self,y,z)" := rfl

/-! ### C9 -/

/-- A Python 2 `unicode` string: exact type is not `str`, no `next`
attribute, `len` succeeds; it is a text string and supports iteration.  (A
subclass of `str` presents the same feature vector.) -/
def unicodeStr : PyObj :=
  { typeIsStr := false, hasNextAttr := false, lenOk := true,
    isTextString := true, supportsIteration := true }

/-- C9 counterexample: `iterable` returns `True` on a `unicode` text string
— the exact-type check `type(obj) is str` misses it — so `asiterable`
returns it unchanged and identity-set construction would decompose it
character by character; the claimed equivalence of `iterable` with
"supports iteration and is not a text string" fails on this object. -/
theorem c9_counterexample :
    iterable unicodeStr = true ∧
      (unicodeStr.supportsIteration && !unicodeStr.isTextString) = false ∧
      asiterable unicodeStr = Sum.inl unicodeStr := by decide

/-- C9 (amended): `iterable(x)` is true iff the exact type of `x` is not
`str` and `x` either has a `next` attribute or supports `len`.  This is not
"supports iteration and is not a text string": it diverges on unicode text
strings (true) and on iterables with neither a `next` attribute nor a
length (false).  `asiterable` wraps exactly the objects with `iterable`
false into a one-element list — in particular every exact-type `str` — and
returns objects with a `next` attribute or a length (and exact type other
than `str`) unchanged. -/
theorem c9_iterable (obj : PyObj) (hn hl it si it2 si2 : Bool) :
    iterable obj = (!obj.typeIsStr && (obj.hasNextAttr || obj.lenOk)) ∧
      asiterable (PyObj.mk true hn hl it si) =
        Sum.inr [PyObj.mk true hn hl it si] ∧
      asiterable (PyObj.mk false true hl it2 si2) =
        Sum.inl (PyObj.mk false true hl it2 si2) ∧
      asiterable (PyObj.mk false false true it2 si2) =
        Sum.inl (PyObj.mk false false true it2 si2) := by
  refine ⟨?_, by simp [asiterable, iterable], by simp [asiterable, iterable],
    by simp [asiterable, iterable]⟩
  rcases obj with ⟨t, n, l, i, s⟩
  cases t <;> cases n <;> cases l <;> simp [iterable]
